import Mathlib

/-!
Verification development for the Speaker repository: a shallow embedding of
`app/services/transcribe_service.py`, `app/services/audio_utils.py` and the
alignment helpers, together with theorems settling the specification claims.

Times are modelled as rationals, Python strings as Lean strings, and the
filesystem / subprocess environment as explicit oracle inputs recorded in a
trace, so every definition is executable.
-/

/-- A wall-clock timestamp at second resolution, as consumed by
`datetime.datetime.now().strftime("session_%Y-%m-%d_%H-%M-%S")`. -/
structure Timestamp where
  year : Nat
  month : Nat
  day : Nat
  hour : Nat
  minute : Nat
  second : Nat
deriving DecidableEq, Repr

/-- Zero-padding to at least two digits, the behaviour of strftime fields
such as month, day, hour, minute, second. -/
def pad2 (n : Nat) : String :=
  if n < 10 then ("0") ++ toString n else toString n

/-- Zero-padding to at least four digits, the behaviour of strftime field Y. -/
def pad4 (n : Nat) : String :=
  if n < 10 then ("000") ++ toString n
  else if n < 100 then ("00") ++ toString n
  else if n < 1000 then ("0") ++ toString n
  else toString n

/-- The session name computed at `transcribe_service.py:44`:
`datetime.datetime.now().strftime("session_%Y-%m-%d_%H-%M-%S")`. -/
def sessionNameOf (t : Timestamp) : String :=
  ("session_") ++ pad4 t.year ++ ("-") ++ pad2 t.month ++ ("-") ++ pad2 t.day
    ++ ("_") ++ pad2 t.hour ++ ("-") ++ pad2 t.minute ++ ("-") ++ pad2 t.second

/-- `SAVE_ROOT = Path("saved_sessions")` at `transcribe_service.py:12`. -/
def SAVE_ROOT : String := "saved_sessions"

/-- One replacement pass of Python `str.replace` for a non-empty pattern
`p0 :: ps`: scan left to right, replacing each non-overlapping occurrence.
The fuel argument is an upper bound on the scan length (at least one
character is consumed per step), making the recursion structural. -/
def pyReplaceAux (p0 : Char) (ps rep : List Char) : Nat → List Char → List Char
  | _, [] => []
  | 0, s => s
  | fuel + 1, c :: rest =>
    if p0 = c ∧ ps.isPrefixOf rest = true then
      rep ++ pyReplaceAux p0 ps rep fuel (rest.drop ps.length)
    else
      c :: pyReplaceAux p0 ps rep fuel rest

/-- Python `s.replace(pat, rep)` (all non-overlapping occurrences, left to
right; an empty pattern is never used by this codebase and is modelled as the
identity). -/
def pyReplace (s pat rep : String) : String :=
  match pat.data with
  | [] => s
  | p0 :: ps => { data := pyReplaceAux p0 ps rep.data s.data.length s.data }

/-- Whether `pat` occurs as a contiguous substring, the Python `pat in s`
notion that `str.replace` acts on. -/
def hasSubstr (pat : List Char) : List Char → Bool
  | [] => pat.isEmpty
  | c :: rest => pat.isPrefixOf (c :: rest) || hasSubstr pat rest

/-- The ffmpeg command list built by `convert_to_wav_mono`
(`audio_utils.py:9-16`). -/
def ffmpegMonoCommand (input_path output_path : String) : List String :=
  ["ffmpeg", "-i", input_path, "-ac", "1", "-ar", "16000", output_path, "-y"]

/-- `convert_to_wav_mono` (`audio_utils.py:4-18`): the output path is
`input_path.replace(".wav", "_mono.wav")`; ffmpeg is then invoked without a
check on its exit status and the output path is returned unconditionally. -/
def convert_to_wav_mono (input_path : String) : String :=
  pyReplace input_path (".wav") ("_mono.wav")

/-- Python `subprocess.CompletedProcess`: the argument list and the exit
status of the finished child process. -/
structure CompletedProcess where
  args : List String
  returncode : Int
deriving DecidableEq, Repr

/-- Model of `subprocess.run(command, ...)`: the child's exit code is an
input from the environment; a `CalledProcessError` is raised only when
`check=True` is passed and the exit code is non-zero, otherwise the completed
process is returned normally whatever its exit code. -/
def subprocessRun (args : List String) (check : Bool) (exitCode : Int) :
    Except String CompletedProcess :=
  if check = true ∧ exitCode ≠ 0 then Except.error ("CalledProcessError")
  else Except.ok { args := args, returncode := exitCode }

/-- The ffmpeg command list built by `extract_audio_segment`
(`transcribe_service.py:17-23`). -/
def ffmpegExtractCommand (input_path : String) (start stop : ℚ)
    (output_path : String) : List String :=
  ["ffmpeg", "-y", "-i", input_path, "-ss", toString start,
   "-to", toString stop, "-c", "copy", output_path]

/-- `extract_audio_segment` (`transcribe_service.py:15-24`): runs ffmpeg via
`subprocess.run` without `check=True` and returns `None`; `ffmpegExit` is the
child's exit status supplied by the environment. -/
def extract_audio_segment (input_path : String) (start stop : ℚ)
    (output_path : String) (ffmpegExit : Int) : Except String Unit :=
  (subprocessRun (ffmpegExtractCommand input_path start stop output_path)
    false ffmpegExit).map (fun _ => ())

theorem extract_run_ok (input_path : String) (start stop : ℚ)
    (output_path : String) (ffmpegExit : Int) :
    extract_audio_segment input_path start stop output_path ffmpegExit =
      Except.ok () := by
  simp [extract_audio_segment, subprocessRun, Except.map]

theorem pyReplaceAux_id (p0 : Char) (ps rep : List Char) :
    ∀ (fuel : Nat) (s : List Char), hasSubstr (p0 :: ps) s = false →
      pyReplaceAux p0 ps rep fuel s = s := by
  intro fuel
  induction fuel with
  | zero =>
    intro s _
    cases s <;> simp [pyReplaceAux]
  | succ fuel ih =>
    intro s h
    cases s with
    | nil => simp [pyReplaceAux]
    | cons c rest =>
      simp only [hasSubstr, Bool.or_eq_false_iff] at h
      obtain ⟨h1, h2⟩ := h
      have hcond : ¬(p0 = c ∧ ps.isPrefixOf rest = true) := by
        intro ⟨he, hp⟩
        subst he
        simp [List.isPrefixOf] at h1
        rw [hp] at h1
        simp at h1
      simp only [pyReplaceAux, if_neg hcond]
      rw [ih rest h2]

/-- A recognized word with per-word timestamps, as flattened at
`transcribe_service.py:35-38` from the recognition engine output. -/
structure Word where
  word : String
  start : ℚ
  stop : ℚ
deriving DecidableEq, Repr

/-- A diarization segment as produced by `diarize_audio`
(`diarization_service.py:48-68`): start, end and an opaque speaker label. -/
structure DiarSegment where
  start : ℚ
  stop : ℚ
  speaker : String
deriving DecidableEq, Repr

/-- A word with its resolved speaker, `null` when unresolved. -/
structure AlignedWord where
  word : String
  start : ℚ
  stop : ℚ
  speaker : Option String
deriving DecidableEq, Repr

/-- Exact rational subtraction `a - b`, written out over numerator and
denominator so that it evaluates by kernel reduction. -/
def qsub (a b : ℚ) : ℚ :=
  mkRat (a.num * b.den - b.num * a.den) (a.den * b.den)

/-- Exact rational addition `a + b`, written out over numerator and
denominator so that it evaluates by kernel reduction. -/
def qadd (a b : ℚ) : ℚ :=
  mkRat (a.num * b.den + b.num * a.den) (a.den * b.den)

/-- Exact rational halving `a / 2`. -/
def qhalf (a : ℚ) : ℚ :=
  mkRat a.num (a.den * 2)

/-- Python built-in `max` on two rationals. -/
def qmax (a b : ℚ) : ℚ :=
  if a ≤ b then b else a

/-- Python built-in `min` on two rationals. -/
def qmin (a b : ℚ) : ℚ :=
  if a ≤ b then a else b

/-- Python built-in `abs` on a rational. -/
def qabs (a : ℚ) : ℚ :=
  if a ≤ 0 then qsub 0 a else a

/-- Overlap duration between a word and a segment:
`max(0, min(word.end, seg.end) - max(word.start, seg.start))`. -/
def overlapDur (w : Word) (s : DiarSegment) : ℚ :=
  qmax 0 (qsub (qmin w.stop s.stop) (qmax w.start s.start))

/-- Midpoint of a word's span, `(word.start + word.end) / 2`. -/
def midpointOf (w : Word) : ℚ :=
  qhalf (qadd w.start w.stop)

/-- Distance from a point to a segment's span (zero inside the span). -/
def distToSegment (m : ℚ) (s : DiarSegment) : ℚ :=
  qmax 0 (qmax (qsub s.start m) (qsub m s.stop))

/-- Modelled from the spec: the segment of maximal overlap with the word,
ties broken towards the segment whose start is closest to the word's start,
the earlier segment winning at equal distance (spec §4.1); part of
`assign_speaker_to_words` in `app/services/align_service.py`, which is
imported at `transcribe_service.py:3` but not among the provided sources. -/
def pickMaxOverlap (w : Word) (s : DiarSegment) (rest : List DiarSegment) :
    DiarSegment :=
  rest.foldl (fun best cand =>
    if overlapDur w cand > overlapDur w best then cand
    else if overlapDur w cand = overlapDur w best ∧
        qabs (qsub cand.start w.start) < qabs (qsub best.start w.start)
    then cand
    else best) s

/-- Modelled from the spec: the segment nearest to the word midpoint, used
as fallback when no segment has positive overlap (spec §4.1); part of
`assign_speaker_to_words` in the missing `app/services/align_service.py`. -/
def pickNearest (w : Word) (s : DiarSegment) (rest : List DiarSegment) :
    DiarSegment :=
  rest.foldl (fun best cand =>
    if distToSegment (midpointOf w) cand < distToSegment (midpointOf w) best
    then cand else best) s

/-- Modelled from the spec: resolve one word's speaker — maximal overlap,
else nearest segment by midpoint distance, `null` only for an empty segment
list (spec §4.1); the per-word core of `assign_speaker_to_words` in the
missing `app/services/align_service.py`. -/
def resolveSpeaker (w : Word) (segs : List DiarSegment) : Option String :=
  match segs with
  | [] => none
  | s :: rest =>
    let best := pickMaxOverlap w s rest
    if overlapDur w best > 0 then some best.speaker
    else some (pickNearest w s rest).speaker

/-- Modelled from the spec: `assign_speaker_to_words` from the missing
`app/services/align_service.py` (called at `transcribe_service.py:41`), one
aligned word per input word, order preserved (spec §4.1). -/
def assign_speaker_to_words (words : List Word) (segs : List DiarSegment) :
    List AlignedWord :=
  words.map (fun w =>
    { word := w.word, start := w.start, stop := w.stop,
      speaker := resolveSpeaker w segs })

/-- A turn as consumed by the materialization loop: speaker, span and text. -/
structure TurnIn where
  speaker : String
  start : ℚ
  stop : ℚ
  text : String
deriving DecidableEq, Repr

/-- Modelled from the spec: a null resolved speaker is treated as the
distinct label "unknown" when grouping (spec §4.2). -/
def speakerLabel : Option String → String
  | none => "unknown"
  | some s => s

/-- Python `"sep".join(parts)`. -/
def pyJoin (sep : String) : List String → String
  | [] => ""
  | [s] => s
  | s :: t :: rest => s ++ sep ++ pyJoin sep (t :: rest)

/-- Upper-case the first character when it is lowercase (sentence-style
normalization of a finished turn's text, spec §4.2). -/
def capitalizeFirst (s : String) : String :=
  match s.data with
  | [] => s
  | c :: rest => if c.isLower then { data := c.toUpper :: rest } else s

/-- Modelled from the spec: close an accumulated run of same-speaker words
into a Turn — start of the first word, end of the last, texts joined with
single spaces, trimmed, first letter capitalized (spec §4.2); part of
`group_words_to_turns` in the missing `app/services/align_service.py`. -/
def closeTurn (sp : String) (acc : List AlignedWord) : TurnIn :=
  { speaker := sp,
    start := ((acc.head?).map (fun a => a.start)).getD 0,
    stop := ((acc.getLast?).map (fun a => a.stop)).getD 0,
    text := capitalizeFirst ((pyJoin (" ") (acc.map (fun a => a.word))).trim) }

/-- Modelled from the spec: the grouping scan — a word extends the open turn
iff its label equals the accumulator's, otherwise the turn is emitted and a
new one opens (spec §4.2); part of `group_words_to_turns` in the missing
`app/services/align_service.py`. -/
def groupAux (sp : String) (acc : List AlignedWord) :
    List AlignedWord → List TurnIn
  | [] => [closeTurn sp acc]
  | a :: rest =>
    if speakerLabel a.speaker = sp then groupAux sp (acc ++ [a]) rest
    else closeTurn sp acc :: groupAux (speakerLabel a.speaker) [a] rest

/-- Modelled from the spec: `group_words_to_turns` from the missing
`app/services/align_service.py` (called at `transcribe_service.py:42`),
collapsing consecutive same-speaker aligned words into turns (spec §4.2). -/
def group_words_to_turns : List AlignedWord → List TurnIn
  | [] => []
  | a :: rest => groupAux (speakerLabel a.speaker) [a] rest

/-- A turn as returned in the response: the input fields plus the
`audio_path` recorded at `transcribe_service.py:63`. -/
structure TurnOut where
  speaker : String
  start : ℚ
  stop : ℚ
  text : String
  audio_path : Option String
deriving DecidableEq, Repr

/-- A file write performed during materialization: target path and the full
content written. -/
structure FsWrite where
  path : String
  content : String
deriving DecidableEq, Repr

/-- One invocation of `extract_audio_segment`, with the ffmpeg exit status
the environment produced for it. -/
structure ExtractCall where
  input : String
  start : ℚ
  stop : ℚ
  output : String
  exitCode : Int
deriving DecidableEq, Repr

/-- The filesystem trace of one materialization: directories created (with
their `exist_ok` flag), files written, and extraction calls issued. -/
structure MatTrace where
  mkdirs : List (String × Bool)
  writes : List FsWrite
  extracts : List ExtractCall
deriving DecidableEq, Repr

/-- The environment of one materialization: which directory creation and
file writes succeed, and each per-turn ffmpeg exit status (indexed by the
1-based turn index). -/
structure MatOracle where
  sessionMkdirOk : Bool
  fullWriteOk : Bool
  txtWriteOk : Nat → Bool
  extractExit : Nat → Int

/-- Content of `full_transcript.txt` as written at
`transcribe_service.py:49-51`: one `f"{t['speaker']}: {t['text']}\n\n"` per
turn, in order. -/
def fullTranscriptContent : List TurnIn → String
  | [] => ""
  | t :: rest =>
    t.speaker ++ (": ") ++ t.text ++ ("\n\n") ++ fullTranscriptContent rest

/-- The per-turn loop at `transcribe_service.py:53-63`, with the 1-based
index threaded through: create the speaker directory, write the text file
(raising on a failed write), invoke extraction ignoring its exit status, and
record the logical audio path unconditionally. -/
def turnLoop (o : MatOracle) (wav_path session_name session_dir : String)
    (idx : Nat) :
    List TurnIn →
      Except String
        (List TurnOut × List (String × Bool) × List FsWrite × List ExtractCall)
  | [] => Except.ok ([], [], [], [])
  | t :: rest =>
    let sp_dir := session_dir ++ ("/") ++ t.speaker
    let txt_path := sp_dir ++ ("/line_") ++ pad2 idx ++ (".txt")
    let audio_file := sp_dir ++ ("/line_") ++ pad2 idx ++ (".wav")
    if o.txtWriteOk idx then
      match extract_audio_segment wav_path t.start t.stop audio_file
          (o.extractExit idx) with
      | Except.error e => Except.error e
      | Except.ok _ =>
        match turnLoop o wav_path session_name session_dir (idx + 1) rest with
        | Except.error e => Except.error e
        | Except.ok (outs, mks, ws, exs) =>
          Except.ok
            ({ speaker := t.speaker, start := t.start, stop := t.stop,
               text := t.text,
               audio_path := some (("/sessions/") ++ session_name ++ ("/")
                 ++ t.speaker ++ ("/line_") ++ pad2 idx ++ (".wav")) } :: outs,
             (sp_dir, true) :: mks,
             { path := txt_path, content := t.text } :: ws,
             { input := wav_path, start := t.start, stop := t.stop,
               output := audio_file, exitCode := o.extractExit idx } :: exs)
    else Except.error ("turn text write failed")

/-- The materialization section of `transcribe_audio`
(`transcribe_service.py:44-66`): allocate the session name from the clock,
create the session directory with `parents=True, exist_ok=True`, write the
aggregate transcript, run the per-turn loop from index 1, and build the
double-newline-joined script. Failures of directory creation or of a file
write propagate as errors. -/
def transcribe_materialize (o : MatOracle) (now : Timestamp)
    (wav_path : String) (turns : List TurnIn) :
    Except String (String × List TurnOut × String × MatTrace) :=
  let session_name := sessionNameOf now
  let session_dir := SAVE_ROOT ++ ("/") ++ session_name
  if o.sessionMkdirOk then
    if o.fullWriteOk then
      match turnLoop o wav_path session_name session_dir 1 turns with
      | Except.error e => Except.error e
      | Except.ok (outs, mks, ws, exs) =>
        Except.ok (session_name, outs,
          pyJoin ("\n\n")
            (turns.map (fun t => t.speaker ++ (": ") ++ t.text)),
          { mkdirs := (session_dir, true) :: mks,
            writes :=
              { path := session_dir ++ ("/full_transcript.txt"),
                content := fullTranscriptContent turns } :: ws,
            extracts := exs })
    else Except.error ("full transcript write failed")
  else Except.error ("session directory creation failed")

/-- The session name of a materialization result, when it succeeded. -/
def matSession (r : Except String (String × List TurnOut × String × MatTrace)) :
    Option String :=
  match r with
  | Except.ok (s, _, _, _) => some s
  | Except.error _ => none

/-- The enriched turns of a materialization result, when it succeeded. -/
def matTurns (r : Except String (String × List TurnOut × String × MatTrace)) :
    Option (List TurnOut) :=
  match r with
  | Except.ok (_, ts, _, _) => some ts
  | Except.error _ => none

/-- The formatted script of a materialization result, when it succeeded. -/
def matScript (r : Except String (String × List TurnOut × String × MatTrace)) :
    Option String :=
  match r with
  | Except.ok (_, _, s, _) => some s
  | Except.error _ => none

/-- All file writes recorded by a successful materialization. -/
def matWrites (r : Except String (String × List TurnOut × String × MatTrace)) :
    List FsWrite :=
  match r with
  | Except.ok (_, _, _, tr) => tr.writes
  | Except.error _ => []

/-- All directory creations recorded by a successful materialization. -/
def matMkdirs (r : Except String (String × List TurnOut × String × MatTrace)) :
    List (String × Bool) :=
  match r with
  | Except.ok (_, _, _, tr) => tr.mkdirs
  | Except.error _ => []

/-- All extraction calls recorded by a successful materialization. -/
def matExtracts
    (r : Except String (String × List TurnOut × String × MatTrace)) :
    List ExtractCall :=
  match r with
  | Except.ok (_, _, _, tr) => tr.extracts
  | Except.error _ => []

/-- The content of the aggregate transcript file written by a successful
materialization (its write is the first one recorded). -/
def matFullContent
    (r : Except String (String × List TurnOut × String × MatTrace)) :
    Option String :=
  match r with
  | Except.ok (_, _, _, tr) => (tr.writes.head?).map (fun w => w.content)
  | Except.error _ => none

/-- The error message of a failed materialization. -/
def matError (r : Except String (String × List TurnOut × String × MatTrace)) :
    Option String :=
  match r with
  | Except.ok _ => none
  | Except.error e => some e

/-- The environment of one full `transcribe_audio` run: the normalization
ffmpeg exit status, the two external engine results (each may raise), the
materialization environment, and the current wall-clock time. -/
structure Oracle where
  ffmpegMonoExit : Int
  transcribeRes : Except String (List (List Word))
  diarizeRes : Except String (List DiarSegment)
  mat : MatOracle
  now : Timestamp

/-- The response dictionary returned at `transcribe_service.py:68-73`. -/
structure Response where
  status : String
  session : String
  transcription : List TurnOut
  formatted_script : String
deriving Repr

/-- How one `transcribe_audio` invocation ended: its result (a response, or
the propagated exception message) and the scratch files still on disk when
control returns to the caller. -/
structure RunExit where
  result : Except String Response
  scratchLeft : List String

/-- The pipeline entry point `transcribe_audio`
(`transcribe_service.py:26-73`): write the upload to a temporary file,
normalize to mono wav, transcribe, flatten the per-segment word lists,
diarize, align, group, materialize, then remove the temporary file and the
wav file (the two `os.remove` calls at lines 68-70 are executed only on this
final path; an exception from any earlier stage propagates immediately,
leaving the scratch files behind). -/
def transcribe_audio (o : Oracle) (tmp_path : String) : RunExit :=
  let wav_path := convert_to_wav_mono tmp_path
  let scratch :=
    if o.ffmpegMonoExit = 0 then [tmp_path, wav_path] else [tmp_path]
  match o.transcribeRes with
  | Except.error e => { result := Except.error e, scratchLeft := scratch }
  | Except.ok segs =>
    let words := segs.flatten
    match o.diarizeRes with
    | Except.error e => { result := Except.error e, scratchLeft := scratch }
    | Except.ok speaker_segments =>
      let aligned := assign_speaker_to_words words speaker_segments
      let turns := group_words_to_turns aligned
      match transcribe_materialize o.mat o.now wav_path turns with
      | Except.error e => { result := Except.error e, scratchLeft := scratch }
      | Except.ok (session_name, turnsOut, script, _) =>
        let afterTmp := scratch.erase tmp_path
        let afterWav :=
          if wav_path ∈ afterTmp then afterTmp.erase wav_path else afterTmp
        { result := Except.ok
            { status := "success", session := session_name,
              transcription := turnsOut, formatted_script := script },
          scratchLeft := afterWav }

/-- Status and per-turn audio paths of a successful run. -/
def runStatusOf (r : RunExit) : Option (String × List (Option String)) :=
  match r.result with
  | Except.ok resp =>
    some (resp.status, resp.transcription.map (fun t => t.audio_path))
  | Except.error _ => none

/-- The propagated exception message of a failed run. -/
def runErrorOf (r : RunExit) : Option String :=
  match r.result with
  | Except.error e => some e
  | Except.ok _ => none

/-- Split a character list at slash characters, accumulating the current
component in reverse. -/
def splitSlash (cur : List Char) : List Char → List (List Char)
  | [] => [cur.reverse]
  | c :: rest =>
    if c = ('/') then cur.reverse :: splitSlash [] rest
    else splitSlash (c :: cur) rest

/-- Normalize a slash-separated path: drop empty and `.` components and let
`..` cancel the preceding component, yielding the component list of the
location actually addressed. -/
def resolveComponents (p : String) : List String :=
  (((splitSlash [] p.data).map (fun l => String.mk l)).filter
      (fun c => c ≠ ("") && c ≠ ("."))).foldl
    (fun acc c => if c = ("..") then acc.dropLast else acc ++ [c]) []

/-- Map with an explicit starting index, matching `enumerate(turns, start=1)`
at `transcribe_service.py:53`. -/
def mapFrom {β : Type} (f : Nat → TurnIn → β) : Nat → List TurnIn → List β
  | _, [] => []
  | i, t :: ts => f i t :: mapFrom f (i + 1) ts

theorem fullTranscriptContent_eq_join (turns : List TurnIn) (h : turns ≠ []) :
    fullTranscriptContent turns =
      pyJoin ("\n\n") (turns.map (fun t => t.speaker ++ (": ") ++ t.text))
        ++ ("\n\n") := by
  induction turns with
  | nil => exact absurd rfl h
  | cons t rest ih =>
    cases rest with
    | nil =>
      simp [fullTranscriptContent, pyJoin, String.append_empty]
    | cons u us =>
      have ih' := ih (by simp)
      simp only [fullTranscriptContent, List.map_cons, pyJoin] at *
      rw [ih']
      simp [String.append_assoc]

theorem turnLoop_eq (o : MatOracle) (wav sn sd : String)
    (ht : ∀ i, o.txtWriteOk i = true) :
    ∀ (ts : List TurnIn) (idx : Nat),
    turnLoop o wav sn sd idx ts = Except.ok
      (mapFrom (fun i t =>
         { speaker := t.speaker, start := t.start, stop := t.stop,
           text := t.text,
           audio_path := some (("/sessions/") ++ sn ++ ("/") ++ t.speaker
             ++ ("/line_") ++ pad2 i ++ (".wav")) }) idx ts,
       mapFrom (fun _ t => (sd ++ ("/") ++ t.speaker, true)) idx ts,
       mapFrom (fun i t =>
         { path := sd ++ ("/") ++ t.speaker ++ ("/line_") ++ pad2 i
             ++ (".txt"),
           content := t.text }) idx ts,
       mapFrom (fun i t =>
         { input := wav, start := t.start, stop := t.stop,
           output := sd ++ ("/") ++ t.speaker ++ ("/line_") ++ pad2 i
             ++ (".wav"),
           exitCode := o.extractExit i }) idx ts) := by
  intro ts
  induction ts with
  | nil =>
    intro idx
    simp [turnLoop, mapFrom]
  | cons t rest ih =>
    intro idx
    simp only [turnLoop, ht idx, if_true, extract_run_ok, ih (idx + 1),
      mapFrom]

theorem transcribe_materialize_eq (o : MatOracle) (now : Timestamp)
    (wav : String) (turns : List TurnIn) (h1 : o.sessionMkdirOk = true)
    (h2 : o.fullWriteOk = true) (h3 : ∀ i, o.txtWriteOk i = true) :
    transcribe_materialize o now wav turns = Except.ok (sessionNameOf now,
      mapFrom (fun i t =>
        ⟨t.speaker, t.start, t.stop, t.text,
         some (("/sessions/") ++ sessionNameOf now ++ ("/")
           ++ t.speaker ++ ("/line_") ++ pad2 i ++ (".wav"))⟩) 1 turns,
      pyJoin ("\n\n") (turns.map (fun t => t.speaker ++ (": ") ++ t.text)),
      ⟨(SAVE_ROOT ++ ("/") ++ sessionNameOf now, true) ::
         mapFrom (fun _ t =>
           (SAVE_ROOT ++ ("/") ++ sessionNameOf now ++ ("/") ++ t.speaker,
            true)) 1 turns,
       ⟨SAVE_ROOT ++ ("/") ++ sessionNameOf now ++ ("/full_transcript.txt"),
        fullTranscriptContent turns⟩ ::
         mapFrom (fun i t =>
           ⟨SAVE_ROOT ++ ("/") ++ sessionNameOf now ++ ("/")
              ++ t.speaker ++ ("/line_") ++ pad2 i ++ (".txt"),
            t.text⟩) 1 turns,
       mapFrom (fun i t =>
         ⟨wav, t.start, t.stop,
          SAVE_ROOT ++ ("/") ++ sessionNameOf now ++ ("/")
            ++ t.speaker ++ ("/line_") ++ pad2 i ++ (".wav"),
          o.extractExit i⟩) 1 turns⟩) := by
  simp only [transcribe_materialize, h1, h2, if_true,
    turnLoop_eq o wav (sessionNameOf now)
      (SAVE_ROOT ++ ("/") ++ sessionNameOf now) h3 turns 1]

/-- C8: a word aligned by `assign_speaker_to_words` has a null resolved
speaker exactly when the segment list is empty; in particular, for every
non-empty diarization segment list every input word receives a non-null
resolved speaker (maximal overlap when one exists, otherwise the nearest
segment by midpoint distance). -/
theorem assign_c8_speaker_total (words : List Word) (segs : List DiarSegment)
    (aw : AlignedWord) (h : aw ∈ assign_speaker_to_words words segs) :
    aw.speaker = none ↔ segs = [] := by
  simp only [assign_speaker_to_words, List.mem_map] at h
  obtain ⟨w, hw, rfl⟩ := h
  show resolveSpeaker w segs = none ↔ segs = []
  cases segs with
  | nil => simp [resolveSpeaker]
  | cons s rest =>
    have hne : resolveSpeaker w (s :: rest) ≠ none := by
      simp only [resolveSpeaker]
      split <;> simp
    constructor
    · intro hnone
      exact absurd hnone hne
    · intro hc
      cases hc

/-- Witness for C8 at a concrete word and single-segment list. -/
theorem assign_c8_speaker_total_witness :
    (({ word := "a", start := 0, stop := 1, speaker := some ("S1") } :
        AlignedWord).speaker = none ↔
      ([⟨0, 1, ("S1")⟩] : List DiarSegment) = []) :=
  assign_c8_speaker_total [⟨("a"), 0, 1⟩] [⟨0, 1, ("S1")⟩] _ (by decide)

/-- C9: `extract_audio_segment` returns normally for every choice of input
path, start, end, output path and ffmpeg exit status — `subprocess.run` is
invoked without `check=True`, so a non-zero exit is reported only through
the completed process's return code and never becomes a raised exception in
the pipeline's control flow. -/
theorem extract_c9_no_exception (input_path : String) (start stop : ℚ)
    (output_path : String) (exitCode : Int) :
    extract_audio_segment input_path start stop output_path exitCode =
        Except.ok () ∧
      subprocessRun (ffmpegExtractCommand input_path start stop output_path)
          false exitCode =
        Except.ok
          ⟨ffmpegExtractCommand input_path start stop output_path,
           exitCode⟩ := by
  refine ⟨extract_run_ok input_path start stop output_path exitCode, ?_⟩
  simp [subprocessRun]

/-- C10: `convert_to_wav_mono` returns the input path with every occurrence
of ".wav" replaced by "_mono.wav"; when ".wav" does not occur in the input
path, the returned output path is the input path itself, so the ffmpeg
command (which is invoked with -y) receives its own input file as the
output argument. -/
theorem convert_c10_no_wav_overwrites_input (p : String)
    (h : hasSubstr (".wav").data p.data = false) :
    convert_to_wav_mono p = pyReplace p (".wav") ("_mono.wav") ∧
      convert_to_wav_mono p = p ∧
      ffmpegMonoCommand p (convert_to_wav_mono p) = ffmpegMonoCommand p p := by
  have hid : convert_to_wav_mono p = p := by
    show String.mk
      (pyReplaceAux ('.') (['w', 'a', 'v']) ("_mono.wav").data
        p.data.length p.data) = p
    rw [pyReplaceAux_id ('.') (['w', 'a', 'v']) ("_mono.wav").data
      p.data.length p.data h]
  exact ⟨rfl, hid, by rw [hid]⟩

/-- Witness for C10 at a path without a ".wav" occurrence. -/
theorem convert_c10_no_wav_overwrites_input_witness :
    convert_to_wav_mono ("audio.mp3") =
        pyReplace ("audio.mp3") (".wav") ("_mono.wav") ∧
      convert_to_wav_mono ("audio.mp3") = ("audio.mp3") ∧
      ffmpegMonoCommand ("audio.mp3") (convert_to_wav_mono ("audio.mp3")) =
        ffmpegMonoCommand ("audio.mp3") ("audio.mp3") :=
  convert_c10_no_wav_overwrites_input ("audio.mp3") (by decide)

/-- C4 counterexample: a concrete successful run persists its artifacts under
"saved_sessions/<session_name>/...", not "sessions/<session_name>/...", and
the audio_path recorded on the turn ("/sessions/...") is not the path of the
wav file the extraction call actually wrote ("saved_sessions/..."). -/
theorem transcribe_c4_counterexample :
    ((matWrites (transcribe_materialize ⟨true, true, fun _ => true,
          fun _ => 0⟩ ⟨2026, 1, 2, 3, 4, 5⟩ ("/w_mono.wav")
          [⟨("S1"), 0, 1, ("hi")⟩])).map (fun w => w.path) =
      [("saved_sessions/session_2026-01-02_03-04-05/full_transcript.txt"),
       ("saved_sessions/session_2026-01-02_03-04-05/S1/line_01.txt")]) ∧
    ((("sessions/").data.isPrefixOf
      ("saved_sessions/session_2026-01-02_03-04-05/full_transcript.txt").data)
        = false) ∧
    ((matTurns (transcribe_materialize ⟨true, true, fun _ => true,
          fun _ => 0⟩ ⟨2026, 1, 2, 3, 4, 5⟩ ("/w_mono.wav")
          [⟨("S1"), 0, 1, ("hi")⟩])).map (fun ts =>
        ts.map (fun t => t.audio_path)) =
      some [some ("/sessions/session_2026-01-02_03-04-05/S1/line_01.wav")]) ∧
    ((matExtracts (transcribe_materialize ⟨true, true, fun _ => true,
          fun _ => 0⟩ ⟨2026, 1, 2, 3, 4, 5⟩ ("/w_mono.wav")
          [⟨("S1"), 0, 1, ("hi")⟩])).map (fun e => e.output) =
      [("saved_sessions/session_2026-01-02_03-04-05/S1/line_01.wav")]) ∧
    (("/sessions/session_2026-01-02_03-04-05/S1/line_01.wav" : String) ≠
      ("saved_sessions/session_2026-01-02_03-04-05/S1/line_01.wav")) := by
  decide

/-- C4 (amended): for every turn list, a materialization whose directory
creation and file writes succeed persists exactly
`saved_sessions/<session_name>/full_transcript.txt` followed by one
`saved_sessions/<session_name>/<speaker>/line_<NN>.txt` per turn, requests
extraction to `saved_sessions/<session_name>/<speaker>/line_<NN>.wav`, with
NN the 1-based turn index zero-padded to at least two digits and assigned in
turn order; each turn's recorded audio_path is
`/sessions/<session_name>/<speaker>/line_<NN>.wav` — the same
session-relative suffix but rooted at `/sessions`, not at the
`saved_sessions` directory the wav file is written under. -/
theorem transcribe_c4_layout (o : MatOracle) (now : Timestamp)
    (wav : String) (turns : List TurnIn) (h1 : o.sessionMkdirOk = true)
    (h2 : o.fullWriteOk = true) (h3 : ∀ i, o.txtWriteOk i = true) :
    transcribe_materialize o now wav turns = Except.ok (sessionNameOf now,
      mapFrom (fun i t =>
        ⟨t.speaker, t.start, t.stop, t.text,
         some (("/sessions/") ++ sessionNameOf now ++ ("/")
           ++ t.speaker ++ ("/line_") ++ pad2 i ++ (".wav"))⟩) 1 turns,
      pyJoin ("\n\n") (turns.map (fun t => t.speaker ++ (": ") ++ t.text)),
      ⟨(SAVE_ROOT ++ ("/") ++ sessionNameOf now, true) ::
         mapFrom (fun _ t =>
           (SAVE_ROOT ++ ("/") ++ sessionNameOf now ++ ("/") ++ t.speaker,
            true)) 1 turns,
       ⟨SAVE_ROOT ++ ("/") ++ sessionNameOf now ++ ("/full_transcript.txt"),
        fullTranscriptContent turns⟩ ::
         mapFrom (fun i t =>
           ⟨SAVE_ROOT ++ ("/") ++ sessionNameOf now ++ ("/")
              ++ t.speaker ++ ("/line_") ++ pad2 i ++ (".txt"),
            t.text⟩) 1 turns,
       mapFrom (fun i t =>
         ⟨wav, t.start, t.stop,
          SAVE_ROOT ++ ("/") ++ sessionNameOf now ++ ("/")
            ++ t.speaker ++ ("/line_") ++ pad2 i ++ (".wav"),
          o.extractExit i⟩) 1 turns⟩) :=
  transcribe_materialize_eq o now wav turns h1 h2 h3

/-- Witness for C4 at a concrete one-turn materialization. -/
theorem transcribe_c4_layout_witness :
    transcribe_materialize ⟨true, true, fun _ => true, fun _ => 0⟩
        ⟨2026, 1, 2, 3, 4, 5⟩ ("/w_mono.wav") [⟨("S1"), 0, 1, ("hi")⟩] =
      Except.ok (("session_2026-01-02_03-04-05"),
        [⟨("S1"), 0, 1, ("hi"),
          some ("/sessions/session_2026-01-02_03-04-05/S1/line_01.wav")⟩],
        ("S1: hi"),
        ⟨[(("saved_sessions/session_2026-01-02_03-04-05"), true),
          (("saved_sessions/session_2026-01-02_03-04-05/S1"), true)],
         [⟨("saved_sessions/session_2026-01-02_03-04-05/full_transcript.txt"),
           ("S1: hi\n\n")⟩,
          ⟨("saved_sessions/session_2026-01-02_03-04-05/S1/line_01.txt"),
           ("hi")⟩],
         [⟨("/w_mono.wav"), 0, 1,
           ("saved_sessions/session_2026-01-02_03-04-05/S1/line_01.wav"),
           0⟩]⟩) :=
  transcribe_c4_layout ⟨true, true, fun _ => true, fun _ => 0⟩
    ⟨2026, 1, 2, 3, 4, 5⟩ ("/w_mono.wav") [⟨("S1"), 0, 1, ("hi")⟩]
    rfl rfl (fun _ => rfl)

/-- C5 counterexample: in a concrete run the aggregate transcript file's
textual content is "S1: hi\n\n", while the concatenation of the turn texts
in order is "hi" — the two are not equal, because the file content carries
the "speaker: " prefixes and the double-newline separators. -/
theorem transcribe_c5_counterexample :
    (matFullContent (transcribe_materialize ⟨true, true, fun _ => true,
          fun _ => 0⟩ ⟨2026, 1, 2, 3, 4, 5⟩ ("/w_mono.wav")
          [⟨("S1"), 0, 1, ("hi")⟩]) =
      some ("S1: hi\n\n")) ∧
    (String.join (([⟨("S1"), 0, 1, ("hi")⟩] : List TurnIn).map
        (fun t => t.text)) = ("hi")) ∧
    (("S1: hi\n\n" : String) ≠ ("hi")) := by
  decide

/-- C5 (amended): for every turn list, a materialization whose directory
creation and file writes succeed returns a formatted_script equal to the
"speaker: text" lines joined by double newlines in turn order, and writes an
aggregate transcript whose content is the concatenation of
"speaker: text\n\n" per turn in the same order — that is, the script
followed by one trailing double newline when there is at least one turn, and
the empty string when there are none. The two therefore enumerate exactly
the same (speaker, text) pairs in the same order; the concatenation of the
bare turn texts equals the file content only after the "speaker: " prefixes
and separators are stripped. -/
theorem transcribe_c5_script_consistency (o : MatOracle) (now : Timestamp)
    (wav : String) (turns : List TurnIn) (h1 : o.sessionMkdirOk = true)
    (h2 : o.fullWriteOk = true) (h3 : ∀ i, o.txtWriteOk i = true) :
    matScript (transcribe_materialize o now wav turns) =
        some (pyJoin ("\n\n")
          (turns.map (fun t => t.speaker ++ (": ") ++ t.text))) ∧
      matFullContent (transcribe_materialize o now wav turns) =
        some (fullTranscriptContent turns) ∧
      (turns ≠ [] → fullTranscriptContent turns =
        pyJoin ("\n\n") (turns.map (fun t => t.speaker ++ (": ") ++ t.text))
          ++ ("\n\n")) ∧
      (turns = [] → fullTranscriptContent turns = ("") ∧
        pyJoin ("\n\n") (turns.map (fun t => t.speaker ++ (": ") ++ t.text))
          = ("")) := by
  refine ⟨?_, ?_, fun hne => fullTranscriptContent_eq_join turns hne,
    fun he => ?_⟩
  · rw [transcribe_materialize_eq o now wav turns h1 h2 h3]
    rfl
  · rw [transcribe_materialize_eq o now wav turns h1 h2 h3]
    rfl
  · subst he
    exact ⟨rfl, rfl⟩

/-- Witness for C5 at a concrete two-turn materialization. -/
theorem transcribe_c5_script_consistency_witness :
    matScript (transcribe_materialize ⟨true, true, fun _ => true, fun _ => 0⟩
          ⟨2026, 1, 2, 3, 4, 5⟩ ("/w_mono.wav")
          [⟨("S1"), 0, 1, ("hi")⟩, ⟨("S2"), 1, 2, ("yo")⟩]) =
        some ("S1: hi\n\nS2: yo") ∧
      matFullContent (transcribe_materialize
          ⟨true, true, fun _ => true, fun _ => 0⟩
          ⟨2026, 1, 2, 3, 4, 5⟩ ("/w_mono.wav")
          [⟨("S1"), 0, 1, ("hi")⟩, ⟨("S2"), 1, 2, ("yo")⟩]) =
        some ("S1: hi\n\nS2: yo\n\n") ∧
      (([⟨("S1"), 0, 1, ("hi")⟩, ⟨("S2"), 1, 2, ("yo")⟩] : List TurnIn)
          ≠ [] →
        ("S1: hi\n\nS2: yo\n\n" : String) =
          ("S1: hi\n\nS2: yo") ++ ("\n\n")) ∧
      (([⟨("S1"), 0, 1, ("hi")⟩, ⟨("S2"), 1, 2, ("yo")⟩] : List TurnIn)
          = [] →
        ("S1: hi\n\nS2: yo\n\n" : String) = ("") ∧
          ("S1: hi\n\nS2: yo" : String) = ("")) :=
  transcribe_c5_script_consistency ⟨true, true, fun _ => true, fun _ => 0⟩
    ⟨2026, 1, 2, 3, 4, 5⟩ ("/w_mono.wav")
    [⟨("S1"), 0, 1, ("hi")⟩, ⟨("S2"), 1, 2, ("yo")⟩]
    rfl rfl (fun _ => rfl)

/-- C1 (code bug, evaluated at the failing input): a run in which the only
turn's audio extraction fails (ffmpeg exit status 1 for every extraction)
still returns status "success" with that turn's audio_path set to the
extracted clip's logical address — the loop at `transcribe_service.py:62-63`
assigns audio_path unconditionally and never inspects the extraction
result, so a failed extraction can never leave audio_path null. -/
theorem transcribe_c1_failed_extraction_still_sets_path :
    runStatusOf (transcribe_audio
      { ffmpegMonoExit := 0,
        transcribeRes := Except.ok [[⟨("hi"), 0, 1⟩]],
        diarizeRes := Except.ok [⟨0, 1, ("SPEAKER_00")⟩],
        mat := ⟨true, true, fun _ => true, fun _ => 1⟩,
        now := ⟨2026, 1, 2, 3, 4, 5⟩ } ("/tmp/raw.wav")) =
      some (("success"),
        [some ("/sessions/session_2026-01-02_03-04-05/SPEAKER_00/line_01.wav")])
    := by
  decide

/-- C2 (code bug, evaluated at the failing input): two materializations in
the same wall-clock second derive the identical session name and both issue
mkdir with exist_ok=True on the same directory — the second invocation
silently reuses the first session's directory instead of disambiguating. -/
theorem transcribe_c2_same_second_collides :
    (matSession (transcribe_materialize ⟨true, true, fun _ => true,
          fun _ => 0⟩ ⟨2026, 1, 2, 3, 4, 5⟩ ("/a_mono.wav")
          [⟨("S1"), 0, 1, ("first call")⟩]) =
      some ("session_2026-01-02_03-04-05")) ∧
    (matSession (transcribe_materialize ⟨true, true, fun _ => true,
          fun _ => 0⟩ ⟨2026, 1, 2, 3, 4, 5⟩ ("/b_mono.wav")
          [⟨("S2"), 2, 3, ("second call")⟩]) =
      some ("session_2026-01-02_03-04-05")) ∧
    ((matMkdirs (transcribe_materialize ⟨true, true, fun _ => true,
          fun _ => 0⟩ ⟨2026, 1, 2, 3, 4, 5⟩ ("/a_mono.wav")
          [⟨("S1"), 0, 1, ("first call")⟩])).head? =
      some (("saved_sessions/session_2026-01-02_03-04-05"), true)) ∧
    ((matMkdirs (transcribe_materialize ⟨true, true, fun _ => true,
          fun _ => 0⟩ ⟨2026, 1, 2, 3, 4, 5⟩ ("/b_mono.wav")
          [⟨("S2"), 2, 3, ("second call")⟩])).head? =
      some (("saved_sessions/session_2026-01-02_03-04-05"), true)) := by
  decide

/-- C3 (code bug, evaluated at the failing input): when the transcription
stage raises, the exception propagates out of transcribe_audio before the
os.remove calls at `transcribe_service.py:68-70` are reached, and both the
temporary raw-bytes file and the converted mono wav file are left on disk. -/
theorem transcribe_c3_failure_leaves_scratch :
    (runErrorOf (transcribe_audio
      { ffmpegMonoExit := 0,
        transcribeRes := Except.error ("transcription failed"),
        diarizeRes := Except.ok [],
        mat := ⟨true, true, fun _ => true, fun _ => 0⟩,
        now := ⟨2026, 1, 2, 3, 4, 5⟩ } ("/tmp/raw.wav")) =
      some ("transcription failed")) ∧
    ((transcribe_audio
      { ffmpegMonoExit := 0,
        transcribeRes := Except.error ("transcription failed"),
        diarizeRes := Except.ok [],
        mat := ⟨true, true, fun _ => true, fun _ => 0⟩,
        now := ⟨2026, 1, 2, 3, 4, 5⟩ } ("/tmp/raw.wav")).scratchLeft =
      [("/tmp/raw.wav"), ("/tmp/raw_mono.wav")]) := by
  decide

/-- C6 (code bug, evaluated at the failing input): the diarization speaker
label is used verbatim as a path component at `transcribe_service.py:54`;
with the label "../../escape" the per-turn text file path resolves to
`escape/line_01.txt`, outside the session root
`saved_sessions/session_...` — no sanitization takes place. -/
theorem transcribe_c6_unsanitized_label_escapes_root :
    ((matWrites (transcribe_materialize ⟨true, true, fun _ => true,
          fun _ => 0⟩ ⟨2026, 1, 2, 3, 4, 5⟩ ("/tmp/raw_mono.wav")
          [⟨("../../escape"), 0, 1, ("boom")⟩])).map (fun w => w.path) =
      [("saved_sessions/session_2026-01-02_03-04-05/full_transcript.txt"),
       ("saved_sessions/session_2026-01-02_03-04-05/../../escape/line_01.txt")])
      ∧
    (resolveComponents ("saved_sessions/session_2026-01-02_03-04-05") =
      [("saved_sessions"), ("session_2026-01-02_03-04-05")]) ∧
    (resolveComponents
        ("saved_sessions/session_2026-01-02_03-04-05/../../escape/line_01.txt")
      = [("escape"), ("line_01.txt")]) ∧
    (([("saved_sessions"), ("session_2026-01-02_03-04-05")] :
        List String).isPrefixOf [("escape"), ("line_01.txt")] = false) := by
  decide

/-- C7 (code bug, evaluated at the failing input): when the first turn's
text-file write raises, the whole materialization fails — the error
propagates, the remaining turn is never processed, no file write is
recorded, and no per-turn status is surfaced in any returned result. -/
theorem transcribe_c7_txt_write_failure_aborts :
    (matError (transcribe_materialize ⟨true, true, fun i => i != 1,
          fun _ => 0⟩ ⟨2026, 1, 2, 3, 4, 5⟩ ("/tmp/raw_mono.wav")
          [⟨("S1"), 0, 1, ("a")⟩, ⟨("S2"), 1, 2, ("b")⟩]) =
      some ("turn text write failed")) ∧
    (matTurns (transcribe_materialize ⟨true, true, fun i => i != 1,
          fun _ => 0⟩ ⟨2026, 1, 2, 3, 4, 5⟩ ("/tmp/raw_mono.wav")
          [⟨("S1"), 0, 1, ("a")⟩, ⟨("S2"), 1, 2, ("b")⟩]) = none) ∧
    (matWrites (transcribe_materialize ⟨true, true, fun i => i != 1,
          fun _ => 0⟩ ⟨2026, 1, 2, 3, 4, 5⟩ ("/tmp/raw_mono.wav")
          [⟨("S1"), 0, 1, ("a")⟩, ⟨("S2"), 1, 2, ("b")⟩]) = []) := by
  decide
